import Mathlib

/-!
Shallow embedding of `src/fetcher.js` (the `Fetcher` class of the
vast-client-js fetch orchestration layer) and proofs about its
specified behaviour.

JavaScript values that flow through the orchestrator (option bags,
transport results, event payloads) are modelled by the inductive
`JSValue`; JS object literals with spread are modelled as association
lists where a later binding shadows an earlier one, exactly the
semantics of `{ a, b, ...details }`.
-/

/-- A JavaScript value as far as the fetcher observes it:
`undefined`, `null`, booleans, (integer) numbers, strings, and opaque
references (objects, error objects, ad nodes, functions-as-values). -/
inductive JSValue where
  | vUndefined
  | vNull
  | vBool (b : Bool)
  | vNum (n : Int)
  | vStr (s : String)
  | vOpaque (id : Nat)
deriving DecidableEq, Repr

/-- JavaScript truthiness for the values of `JSValue`:
`undefined`, `null`, `false`, `0` and `""` are falsy, all else truthy. -/
def truthy : JSValue → Bool
  | .vUndefined => false
  | .vNull => false
  | .vBool b => b
  | .vNum n => n != 0
  | .vStr s => s != ""
  | .vOpaque _ => true

/-- The JavaScript `a || b` operator on embedded values. -/
def jsOr (a b : JSValue) : JSValue :=
  if truthy a then a else b

/-- A JS object as an ordered list of bindings; in an object literal a
later binding for the same key shadows an earlier one. -/
abbrev Obj : Type := List (String × JSValue)

/-- Property lookup on a JS object: the LAST binding for a key wins,
matching the semantics of object literals with spread. -/
def Obj.get (o : Obj) (k : String) : Option JSValue :=
  o.foldl (fun acc kv => if kv.1 = k then some kv.2 else acc) none

/-- A URL template filter as stored in `this.URLTemplateFilters`:
a function from URL strings to URL strings. -/
abbrev URLFilter : Type := String → String

/-- The argument passed to `addURLTemplateFilter`: either an actual
function, or any other JS value (for which `typeof filter === 'function'`
is false). -/
inductive FilterArg where
  | fn (f : URLFilter)
  | notCallable (v : JSValue)

/-- `addURLTemplateFilter(filter)`: pushes the filter onto the array
only when `typeof filter === 'function'`. -/
def addURLTemplateFilter (fs : List URLFilter) : FilterArg → List URLFilter
  | .fn f => fs ++ [f]
  | .notCallable _ => fs

/-- `removeURLTemplateFilter()`: `this.URLTemplateFilters.pop()` —
removes the last element; on an empty array `pop` does nothing. -/
def removeURLTemplateFilter (fs : List URLFilter) : List URLFilter :=
  fs.dropLast

/-- `countURLTemplateFilters()`: the length of the filters array. -/
def countURLTemplateFilters (fs : List URLFilter) : Nat :=
  fs.length

/-- `clearURLTemplateFilters()`: resets the array to `[]`. -/
def clearURLTemplateFilters (_ : List URLFilter) : List URLFilter :=
  []

/-- One call on the filter-management surface of the fetcher. -/
inductive PipelineOp where
  | add (arg : FilterArg)
  | removeLast
  | clear

/-- Apply one filter-management call to the filters array. -/
def applyOp (fs : List URLFilter) : PipelineOp → List URLFilter
  | .add a => addURLTemplateFilter fs a
  | .removeLast => removeURLTemplateFilter fs
  | .clear => clearURLTemplateFilters fs

/-- Run a sequence of filter-management calls on a fresh `Fetcher`
(whose constructor sets `URLTemplateFilters = []`). -/
def runOps (ops : List PipelineOp) : List URLFilter :=
  ops.foldl applyOp []

/-- The filter application loop of `fetchVAST`:
`this.URLTemplateFilters.forEach((filter) => { url = filter(url); })`,
a left fold seeded with the incoming url. -/
def applyFilters (fs : List URLFilter) (url : String) : String :=
  fs.foldl (fun u f => f u) url

/-- The option bag accepted by `setOptions`; absent properties read as
`undefined`. -/
structure OptionsBag where
  urlHandler : JSValue := .vUndefined
  urlhandler : JSValue := .vUndefined
  timeout : JSValue := .vUndefined
  withCredentials : JSValue := .vUndefined

/-- `this.fetchingOptions` as built by `setOptions`. -/
structure FetchingOptions where
  timeout : JSValue
  withCredentials : JSValue
deriving DecidableEq, Repr

/-- Modelled from the spec: `DEFAULT_TIMEOUT` is imported from
`urlhandlers/consts`, which is not part of the sources; the spec only
says it is a fixed default constant. Its numeric value is irrelevant
to every claim. -/
def DEFAULT_TIMEOUT : Int := 120000

/-- Modelled from the spec: the built-in transport `urlHandler`
imported from `urlhandlers/xhr_url_handler` (not in the sources),
kept as an opaque reference. -/
def defaultUrlHandler : JSValue := .vOpaque 0

/-- The mutable state `setOptions` installs on the fetcher instance. -/
structure FetcherConfig where
  urlHandler : JSValue
  fetchingOptions : FetchingOptions

/-- `setOptions(options)`:
`this.urlHandler = options.urlHandler || options.urlhandler || urlHandler;`
`this.fetchingOptions = { timeout: options.timeout || DEFAULT_TIMEOUT,`
`                         withCredentials: options.withCredentials || false }`. -/
def setOptions (options : OptionsBag) : FetcherConfig :=
  { urlHandler := jsOr options.urlHandler (jsOr options.urlhandler defaultUrlHandler)
    fetchingOptions :=
      { timeout := jsOr options.timeout (.vNum DEFAULT_TIMEOUT)
        withCredentials := jsOr options.withCredentials (.vBool false) } }

/-- The destructured argument of `fetchVAST`, with the source's
defaults (`wrapperDepth = 0`, `previousUrl = null`, `wrapperAd = null`). -/
structure FetchRequest where
  url : String
  maxWrapperDepth : Int
  wrapperDepth : Int := 0
  previousUrl : JSValue := .vNull
  wrapperAd : JSValue := .vNull

/-- The value the transport (`this.urlHandler.get`) completes with:
`{ xml, error, statusCode, details }`; absent fields are `undefined`,
an absent `details` object behaves as the empty object (both under
spread and under optional chaining). -/
structure TransportResult where
  xml : JSValue := .vUndefined
  error : JSValue := .vUndefined
  statusCode : JSValue := .vUndefined
  details : Obj := []

/-- Modelled from the spec: the shared bitrate estimator state of
`parser/bitrate.js` (not in the sources). We record the sequence of
samples the estimator has been fed. -/
structure BitrateState where
  samples : List (JSValue × Int)
deriving DecidableEq, Repr

/-- Modelled from the spec: `updateEstimatedBitrate(byteLength, deltaTime)`
from `parser/bitrate.js` is not in the sources; per the spec it updates
the shared estimator state with `(byteLength, elapsed)` when a byte
length is present and otherwise skips the update without error. The
call site passes `data?.details?.byteLength`, which is `undefined`
exactly when no byte length is present. -/
def updateEstimatedBitrate (st : BitrateState) (byteLength : JSValue) (deltaTime : Int) :
    BitrateState :=
  if byteLength = .vUndefined then st else { samples := st.samples ++ [(byteLength, deltaTime)] }

/-- How one `fetchVAST` promise settles: `resolve(data.xml)` or
`reject(data.error)`. -/
inductive Settlement where
  | resolved (v : JSValue)
  | rejected (e : JSValue)
deriving DecidableEq, Repr

/-- An observable effect of one `fetchVAST` run, in chronological
order: an `emitter(name, payload)` call or a `urlHandler.get` call. -/
inductive Effect where
  | emitted (name : String) (payload : Obj)
  | transportGet (url : String) (opts : FetchingOptions)
deriving DecidableEq

/-- Everything observable about one `fetchVAST` invocation: the
chronological effect trace, the bitrate estimator state after the run,
how (and whether) the returned promise settled, and what the catch
block logged via `console.error`. -/
structure FetchRun where
  trace : List Effect
  bitrate : BitrateState
  settlement : Option Settlement
  logged : List String

/-- The payload of the `VAST-resolving` event. -/
def resolvingPayload (effUrl : String) (opts : FetchingOptions) (req : FetchRequest) : Obj :=
  [("url", .vStr effUrl), ("previousUrl", req.previousUrl),
   ("wrapperDepth", .vNum req.wrapperDepth), ("maxWrapperDepth", .vNum req.maxWrapperDepth),
   ("timeout", opts.timeout), ("wrapperAd", req.wrapperAd)]

/-- The `info` payload of the `VAST-resolved` event:
`{ url, previousUrl, wrapperDepth, error: data.error || null,`
`  duration: deltaTime, statusCode: data.statusCode || null,`
`  ...data.details }` — the spread of `details` comes last, so its
bindings shadow the named ones on lookup. -/
def resolvedInfo (effUrl : String) (req : FetchRequest) (data : TransportResult)
    (deltaTime : Int) : Obj :=
  ([("url", .vStr effUrl), ("previousUrl", req.previousUrl),
    ("wrapperDepth", .vNum req.wrapperDepth), ("error", jsOr data.error .vNull),
    ("duration", .vNum deltaTime), ("statusCode", jsOr data.statusCode .vNull)] : Obj)
  ++ data.details

/-- `fetchVAST({url, maxWrapperDepth, emitter, wrapperDepth, previousUrl,
wrapperAd})`, with its collaborators passed explicitly: the filters
array, `this.fetchingOptions`, the transport (`this.urlHandler.get`,
which per its contract completes with a `TransportResult`), the
`emitter` callback (which may throw, modelled by `Except`), the bitrate
estimator state before the call, and the measured elapsed time
`deltaTime = Math.round(Date.now() - timeBeforeGet)`.

The url is first rebound through the filters; inside the `try` block
the `VAST-resolving` event is emitted, the transport is awaited, the
`VAST-resolved` event is emitted, the bitrate estimator is updated,
and the promise is rejected with `data.error` when that is truthy and
resolved with `data.xml` otherwise. Any exception thrown by the
emitter is caught, logged with `console.error`, and leaves the
promise unsettled. -/
def fetchVAST (filters : List URLFilter) (opts : FetchingOptions)
    (transport : String → FetchingOptions → TransportResult)
    (emitter : String → Obj → Except String Unit)
    (st0 : BitrateState) (deltaTime : Int) (req : FetchRequest) : FetchRun :=
  let url := applyFilters filters req.url
  let p := resolvingPayload url opts req
  match emitter "VAST-resolving" p with
  | .error e =>
      { trace := [.emitted "VAST-resolving" p], bitrate := st0,
        settlement := none, logged := [e] }
  | .ok _ =>
      let data := transport url opts
      let info := resolvedInfo url req data deltaTime
      match emitter "VAST-resolved" info with
      | .error e =>
          { trace := [.emitted "VAST-resolving" p, .transportGet url opts,
                      .emitted "VAST-resolved" info],
            bitrate := st0, settlement := none, logged := [e] }
      | .ok _ =>
          { trace := [.emitted "VAST-resolving" p, .transportGet url opts,
                      .emitted "VAST-resolved" info],
            bitrate := updateEstimatedBitrate st0
              ((Obj.get data.details "byteLength").getD .vUndefined) deltaTime,
            settlement := some (if truthy data.error then .rejected data.error
                                else .resolved data.xml),
            logged := [] }

/-- An emitter callback that returns normally on every event. -/
def okEmitter : String → Obj → Except String Unit :=
  fun _ _ => .ok ()

/-- An emitter callback that throws on every event (models a
notification callback raising an exception). -/
def throwingEmitter : String → Obj → Except String Unit :=
  fun _ _ => .error "listener threw"

/-- An emitter callback that returns normally on `VAST-resolving` but
throws while handling `VAST-resolved`. -/
def throwOnResolvedEmitter : String → Obj → Except String Unit :=
  fun name _ => if name = "VAST-resolved" then .error "listener threw" else .ok ()

/-- Concrete fetching options for ground instances. -/
def opts0 : FetchingOptions :=
  { timeout := .vNum 120000, withCredentials := .vBool false }

/-- The concrete request of the spec's first scenario:
`{url:"http://a/vast.xml", maxWrapperDepth:1, wrapperDepth:0}`. -/
def req0 : FetchRequest :=
  { url := "http://a/vast.xml", maxWrapperDepth := 1 }

/-- A successful concrete transport result whose `details` spread
contains a `url` binding that collides with the named `url` field. -/
def data0 : TransportResult :=
  { xml := .vStr "<VAST/>", statusCode := .vNum 200,
    details := [("byteLength", .vNum 1000), ("url", .vStr "http://shadow/")] }

/-- The number of `add` calls with a callable argument in a sequence of
filter-management operations. -/
def successfulAdds (ops : List PipelineOp) : Nat :=
  ops.countP fun op => match op with
    | .add (.fn _) => true
    | _ => false

/-- The number of `removeLast` calls in a sequence of filter-management
operations. -/
def removeCalls (ops : List PipelineOp) : Nat :=
  ops.countP fun op => match op with
    | .removeLast => true
    | _ => false

/-- The suffix of the operation sequence after its last `clear`
(the whole sequence when it has no `clear`). -/
def sinceLastClear (ops : List PipelineOp) : List PipelineOp :=
  ops.foldl (fun seg op => match op with
    | .clear => []
    | o => seg ++ [o]) []

/-- The count predicted by the claim's words: successful adds minus
`removeLast` calls since the last clear, floored at 0 (Nat
subtraction is exactly the floored difference). -/
def claimSpecCount (ops : List PipelineOp) : Nat :=
  successfulAdds (sinceLastClear ops) - removeCalls (sinceLastClear ops)

/-- Step function on counts matching one filter-management call: a
successful add increments, a non-callable add is a no-op, `removeLast`
decrements but not below zero, `clear` resets to zero. -/
def stepCount (n : Nat) : PipelineOp → Nat
  | .add (.fn _) => n + 1
  | .add (.notCallable _) => n
  | .removeLast => n - 1
  | .clear => 0

/-- The count obtained by folding `stepCount` over the operation
sequence from zero. -/
def effCount (ops : List PipelineOp) : Nat :=
  ops.foldl stepCount 0

/-- The operation sequence refuting the claim's global-floor formula:
add, removeLast, removeLast (on an already empty array), add. -/
def cexOps : List PipelineOp :=
  [.add (.fn fun s => s), .removeLast, .removeLast, .add (.fn fun s => s)]

/-- The concrete request with an opaque wrapper ad node attached. -/
def req1 : FetchRequest :=
  { url := "http://a/vast.xml", maxWrapperDepth := 1, wrapperAd := .vOpaque 7 }

/-- A successful concrete transport result whose `details` carries no
`byteLength`. -/
def dataNoBytes : TransportResult :=
  { xml := .vStr "<VAST/>", statusCode := .vNum 200 }

/-- A failed concrete transport result: `error` is set (an opaque
error object), no body. -/
def dataErr : TransportResult :=
  { error := .vOpaque 1, statusCode := .vNum 301 }

lemma Obj.get_foldl_acc (b : Obj) (k : String) (acc : Option JSValue) :
    b.foldl (fun a kv => if kv.1 = k then some kv.2 else a) acc
      = (Obj.get b k).elim acc some := by
  induction b generalizing acc with
  | nil => rfl
  | cons kv t ih =>
      show t.foldl _ (if kv.1 = k then some kv.2 else acc) = _
      rw [ih]
      have hg : Obj.get (kv :: t) k
          = (Obj.get t k).elim (if kv.1 = k then some kv.2 else none) some := by
        show t.foldl _ (if kv.1 = k then some kv.2 else none) = _
        rw [ih]
      rw [hg]
      cases Obj.get t k with
      | none => by_cases h : kv.1 = k <;> simp [h, Option.elim]
      | some w => simp [Option.elim]

/-- Lookup on a concatenation: a binding in the right (later) part
shadows any binding in the left part. -/
lemma Obj.get_append (a b : Obj) (k : String) :
    Obj.get (a ++ b) k = (Obj.get b k).elim (Obj.get a k) some := by
  show (a ++ b).foldl _ none = _
  rw [List.foldl_append]
  exact Obj.get_foldl_acc b k (Obj.get a k)

/-- The length of the filters array after a run equals the fold of
`stepCount` over the operations, from the starting length. -/
lemma runOps_length_fold (ops : List PipelineOp) :
    ∀ fs : List URLFilter, (ops.foldl applyOp fs).length = ops.foldl stepCount fs.length := by
  induction ops with
  | nil => intro fs; rfl
  | cons op t ih =>
      intro fs
      rw [List.foldl_cons, List.foldl_cons, ih]
      congr 1
      cases op with
      | add a =>
          cases a with
          | fn f => simp [applyOp, addURLTemplateFilter, stepCount]
          | notCallable v => rfl
      | removeLast => simp [applyOp, removeURLTemplateFilter, stepCount]
      | clear => rfl

/-- C9: adding a non-callable argument to the filter pipeline is a
silent no-op — the filters array is unchanged (so `count()` is too),
and no error is raised (`addURLTemplateFilter` is total). -/
theorem addURLTemplateFilter_noncallable_noop (fs : List URLFilter) (v : JSValue) :
    addURLTemplateFilter fs (.notCallable v) = fs ∧
    countURLTemplateFilters (addURLTemplateFilter fs (.notCallable v))
      = countURLTemplateFilters fs :=
  ⟨rfl, rfl⟩

/-- C8 (amended): for every operation sequence run from the empty
pipeline, `count()` equals the fold of the per-operation step counts,
where each `removeLast` decrement is floored at 0 step-by-step (a
`removeLast` on an empty pipeline does not count); moreover
`removeLast` on an empty pipeline is a no-op and `clear` always leaves
`count()` equal to 0. -/
theorem pipeline_count_effective (ops : List PipelineOp) (fs : List URLFilter) :
    countURLTemplateFilters (runOps ops) = effCount ops ∧
    removeURLTemplateFilter ([] : List URLFilter) = [] ∧
    countURLTemplateFilters (clearURLTemplateFilters fs) = 0 := by
  refine ⟨?_, rfl, rfl⟩
  simpa [countURLTemplateFilters, runOps, effCount] using runOps_length_fold ops []

/-- C8 (counterexample): for the sequence add, removeLast, removeLast,
add, the actual `count()` is 1, while "successful adds minus
removeLast calls since the last clear, floored at 0" is
max(2 - 2, 0) = 0. -/
theorem pipeline_count_claim_formula_cex :
    countURLTemplateFilters (runOps cexOps) = 1 ∧ claimSpecCount cexOps = 0 ∧
    countURLTemplateFilters (runOps cexOps) ≠ claimSpecCount cexOps :=
  ⟨rfl, rfl, by decide⟩

/-- C10: any falsy `timeout` option (including the explicit number 0)
is replaced by `DEFAULT_TIMEOUT`, and any falsy `withCredentials` by
`false`; in particular a timeout of 0 cannot be configured. -/
theorem setOptions_falsy_defaults (options : OptionsBag) :
    (truthy options.timeout = false →
      (setOptions options).fetchingOptions.timeout = .vNum DEFAULT_TIMEOUT) ∧
    (truthy options.withCredentials = false →
      (setOptions options).fetchingOptions.withCredentials = .vBool false) ∧
    (setOptions { options with timeout := .vNum 0 }).fetchingOptions.timeout
      = .vNum DEFAULT_TIMEOUT := by
  refine ⟨fun h => ?_, fun h => ?_, ?_⟩
  · simp [setOptions, jsOr, h]
  · simp [setOptions, jsOr, h]
  · simp [setOptions, jsOr, truthy]

/-- Witness for C10 at the option bag `{ timeout: 0 }`. -/
theorem setOptions_falsy_defaults_witness :
    (setOptions { timeout := .vNum 0 }).fetchingOptions.timeout
        = .vNum DEFAULT_TIMEOUT ∧
    (setOptions { timeout := .vNum 0 }).fetchingOptions.withCredentials
        = .vBool false :=
  ⟨(setOptions_falsy_defaults { timeout := .vNum 0 }).1 (by decide),
   (setOptions_falsy_defaults { timeout := .vNum 0 }).2.1 (by decide)⟩

/-- C5: filters fold left-to-right in insertion order with the original
url as seed — for the pipeline holding `f1` then `f2` the effective
URL is `f2(f1(url))`; appending a filter post-composes it; and in
`fetchVAST` that effective URL is what the transport receives and what
the emitted payloads are built from. -/
theorem fetchVAST_filters_apply_in_insertion_order (f1 f2 : URLFilter)
    (opts : FetchingOptions) (transport : String → FetchingOptions → TransportResult)
    (st0 : BitrateState) (dt : Int) (req : FetchRequest)
    (fs : List URLFilter) (g : URLFilter) (u : String) :
    applyFilters [f1, f2] req.url = f2 (f1 req.url) ∧
    applyFilters (fs ++ [g]) u = g (applyFilters fs u) ∧
    (fetchVAST [f1, f2] opts transport okEmitter st0 dt req).trace
      = [.emitted "VAST-resolving" (resolvingPayload (f2 (f1 req.url)) opts req),
         .transportGet (f2 (f1 req.url)) opts,
         .emitted "VAST-resolved"
           (resolvedInfo (f2 (f1 req.url)) req (transport (f2 (f1 req.url)) opts) dt)] := by
  refine ⟨rfl, ?_, rfl⟩
  simp [applyFilters]

/-- C1 (counterexample): with a transport result whose `details`
carries a `url` binding, the emitted `VAST-resolved` payload's `url`
is the detail value `"http://shadow/"`, not the effective URL
`"http://a/vast.xml"` — the named field does NOT take precedence. -/
theorem fetchVAST_named_url_shadowed_cex :
    Obj.get (resolvedInfo "http://a/vast.xml" req0 data0 5) "url"
      = some (.vStr "http://shadow/") ∧
    (JSValue.vStr "http://shadow/") ≠ .vStr "http://a/vast.xml" ∧
    (fetchVAST [] opts0 (fun _ _ => data0) okEmitter ⟨[]⟩ 5 req0).trace.getLast?
      = some (.emitted "VAST-resolved" (resolvedInfo "http://a/vast.xml" req0 data0 5)) :=
  ⟨by decide, by decide, rfl⟩

/-- C1 (amended): in the `VAST-resolved` payload built by `fetchVAST`,
the spread of `TransportResult.details` comes last, so detail fields
take precedence over the same-named `url`, `previousUrl`,
`wrapperDepth`, `error`, `duration` and `statusCode` fields: for every
key the details object binds, the emitted payload's value for that key
is the detail field's value. -/
theorem fetchVAST_details_take_precedence (filters : List URLFilter)
    (opts : FetchingOptions) (transport : String → FetchingOptions → TransportResult)
    (st0 : BitrateState) (dt : Int) (req : FetchRequest) (k : String) (v : JSValue)
    (h : Obj.get (transport (applyFilters filters req.url) opts).details k = some v) :
    Obj.get (resolvedInfo (applyFilters filters req.url) req
        (transport (applyFilters filters req.url) opts) dt) k = some v ∧
    (fetchVAST filters opts transport okEmitter st0 dt req).trace.getLast?
      = some (.emitted "VAST-resolved" (resolvedInfo (applyFilters filters req.url) req
          (transport (applyFilters filters req.url) opts) dt)) := by
  constructor
  · unfold resolvedInfo
    rw [Obj.get_append, h, Option.elim]
  · rfl

/-- Witness for C1 (amended) at the shadowing transport result. -/
theorem fetchVAST_details_take_precedence_witness :
    Obj.get (resolvedInfo "http://a/vast.xml" req0 data0 5) "byteLength"
      = some (.vNum 1000) ∧
    (fetchVAST [] opts0 (fun _ _ => data0) okEmitter ⟨[]⟩ 5 req0).trace.getLast?
      = some (.emitted "VAST-resolved" (resolvedInfo "http://a/vast.xml" req0 data0 5)) :=
  fetchVAST_details_take_precedence [] opts0 (fun _ _ => data0) ⟨[]⟩ 5 req0
    "byteLength" (.vNum 1000) rfl

/-- C2: when every notification callback returns normally, the promise
settles exactly once, by rejecting with `TransportResult.error` when
that field is set (truthy) and resolving with the document body
`TransportResult.xml` otherwise — never both, the settlement being a
single value. -/
theorem fetchVAST_settlement_matches_transport_error (filters : List URLFilter)
    (opts : FetchingOptions) (transport : String → FetchingOptions → TransportResult)
    (emitter : String → Obj → Except String Unit) (st0 : BitrateState) (dt : Int)
    (req : FetchRequest)
    (hemit : ∀ name payload, emitter name payload = .ok ()) :
    (fetchVAST filters opts transport emitter st0 dt req).settlement
      = some (if truthy (transport (applyFilters filters req.url) opts).error
              then .rejected (transport (applyFilters filters req.url) opts).error
              else .resolved (transport (applyFilters filters req.url) opts).xml) := by
  simp [fetchVAST, hemit]

/-- Witness for C2: a success settles with the body, a transport error
settles by rejecting with exactly that error. -/
theorem fetchVAST_settlement_matches_transport_error_witness :
    (fetchVAST [] opts0 (fun _ _ => data0) okEmitter ⟨[]⟩ 5 req0).settlement
      = some (.resolved (.vStr "<VAST/>")) ∧
    (fetchVAST [] opts0 (fun _ _ => dataErr) okEmitter ⟨[]⟩ 5 req0).settlement
      = some (.rejected (.vOpaque 1)) :=
  ⟨fetchVAST_settlement_matches_transport_error [] opts0 (fun _ _ => data0) okEmitter
      ⟨[]⟩ 5 req0 (fun _ _ => rfl),
   fetchVAST_settlement_matches_transport_error [] opts0 (fun _ _ => dataErr) okEmitter
      ⟨[]⟩ 5 req0 (fun _ _ => rfl)⟩

/-- C3 (code evaluated at the failing inputs): with a notification
callback that throws — on `VAST-resolving` or on `VAST-resolved` —
the exception is caught and logged and the promise never settles, so
no `FetchOutcome` is produced at all, contradicting single settlement
per invocation. -/
theorem fetchVAST_throwing_emitter_never_settles :
    (fetchVAST [] opts0 (fun _ _ => data0) throwingEmitter ⟨[]⟩ 5 req0).settlement = none ∧
    (fetchVAST [] opts0 (fun _ _ => data0) throwingEmitter ⟨[]⟩ 5 req0).logged
      = ["listener threw"] ∧
    (fetchVAST [] opts0 (fun _ _ => data0) throwOnResolvedEmitter ⟨[]⟩ 5 req0).settlement
      = none ∧
    (fetchVAST [] opts0 (fun _ _ => data0) throwOnResolvedEmitter ⟨[]⟩ 5 req0).logged
      = ["listener threw"] :=
  ⟨rfl, rfl, by decide, by decide⟩

/-- C4 (counterexample): the `wrapperAd` supplied in the request
appears in the `VAST-resolving` payload but is absent from the
`VAST-resolved` payload that `fetchVAST` actually emits. -/
theorem fetchVAST_wrapperAd_absent_from_resolved_cex :
    Obj.get (resolvingPayload "http://a/vast.xml" opts0 req1) "wrapperAd"
      = some (.vOpaque 7) ∧
    Obj.get (resolvedInfo "http://a/vast.xml" req1 data0 5) "wrapperAd" = none ∧
    (fetchVAST [] opts0 (fun _ _ => data0) okEmitter ⟨[]⟩ 5 req1).trace
      = [.emitted "VAST-resolving" (resolvingPayload "http://a/vast.xml" opts0 req1),
         .transportGet "http://a/vast.xml" opts0,
         .emitted "VAST-resolved" (resolvedInfo "http://a/vast.xml" req1 data0 5)] :=
  ⟨by decide, by decide, rfl⟩

/-- C4 (amended): the request's `wrapperDepth` and `previousUrl` are
passed through unchanged (never mutated nor validated) into both
emitted payloads — readable there whenever the transport's `details`
does not shadow those keys — while `wrapperAd` is passed through
unchanged into the `VAST-resolving` payload only; in the
`VAST-resolved` payload a `wrapperAd` key can come only from
`TransportResult.details`. -/
theorem fetchVAST_passthrough (filters : List URLFilter)
    (opts : FetchingOptions) (transport : String → FetchingOptions → TransportResult)
    (st0 : BitrateState) (dt : Int) (req : FetchRequest)
    (h1 : Obj.get (transport (applyFilters filters req.url) opts).details "wrapperDepth"
        = none)
    (h2 : Obj.get (transport (applyFilters filters req.url) opts).details "previousUrl"
        = none) :
    Obj.get (resolvingPayload (applyFilters filters req.url) opts req) "wrapperDepth"
      = some (.vNum req.wrapperDepth) ∧
    Obj.get (resolvingPayload (applyFilters filters req.url) opts req) "previousUrl"
      = some req.previousUrl ∧
    Obj.get (resolvingPayload (applyFilters filters req.url) opts req) "wrapperAd"
      = some req.wrapperAd ∧
    Obj.get (resolvedInfo (applyFilters filters req.url) req
        (transport (applyFilters filters req.url) opts) dt) "wrapperDepth"
      = some (.vNum req.wrapperDepth) ∧
    Obj.get (resolvedInfo (applyFilters filters req.url) req
        (transport (applyFilters filters req.url) opts) dt) "previousUrl"
      = some req.previousUrl ∧
    Obj.get (resolvedInfo (applyFilters filters req.url) req
        (transport (applyFilters filters req.url) opts) dt) "wrapperAd"
      = Obj.get (transport (applyFilters filters req.url) opts).details "wrapperAd" ∧
    (fetchVAST filters opts transport okEmitter st0 dt req).trace
      = [.emitted "VAST-resolving" (resolvingPayload (applyFilters filters req.url) opts req),
         .transportGet (applyFilters filters req.url) opts,
         .emitted "VAST-resolved" (resolvedInfo (applyFilters filters req.url) req
           (transport (applyFilters filters req.url) opts) dt)] := by
  refine ⟨rfl, rfl, rfl, ?_, ?_, ?_, rfl⟩
  · unfold resolvedInfo
    rw [Obj.get_append, h1, Option.elim]
    rfl
  · unfold resolvedInfo
    rw [Obj.get_append, h2, Option.elim]
    rfl
  · unfold resolvedInfo
    rw [Obj.get_append]
    cases hw : Obj.get (transport (applyFilters filters req.url) opts).details "wrapperAd" with
    | none => rfl
    | some w => rfl

/-- Witness for C4 (amended) at a request carrying an opaque
wrapper ad and a transport result whose details do not shadow the
pass-through keys. -/
theorem fetchVAST_passthrough_witness :
    Obj.get (resolvingPayload "http://a/vast.xml" opts0 req1) "wrapperAd"
      = some (.vOpaque 7) ∧
    Obj.get (resolvedInfo "http://a/vast.xml" req1 data0 5) "wrapperDepth"
      = some (.vNum 0) ∧
    Obj.get (resolvedInfo "http://a/vast.xml" req1 data0 5) "previousUrl"
      = some .vNull :=
  have h := fetchVAST_passthrough [] opts0 (fun _ _ => data0) ⟨[]⟩ 5 req1 rfl rfl
  ⟨h.2.2.1, h.2.2.2.1, h.2.2.2.2.1⟩

/-- C6: when the transport result's `details` carries no `byteLength`,
the bitrate estimator state after the fetch is the state before it
(the update is skipped without error); when `byteLength` is present,
the estimator receives exactly the sample `(byteLength, deltaTime)`. -/
theorem fetchVAST_bitrate_update (filters : List URLFilter)
    (opts : FetchingOptions) (transport : String → FetchingOptions → TransportResult)
    (st0 : BitrateState) (dt : Int) (req : FetchRequest) :
    (Obj.get (transport (applyFilters filters req.url) opts).details "byteLength" = none →
      (fetchVAST filters opts transport okEmitter st0 dt req).bitrate = st0) ∧
    (∀ b, Obj.get (transport (applyFilters filters req.url) opts).details "byteLength"
        = some b → b ≠ .vUndefined →
      (fetchVAST filters opts transport okEmitter st0 dt req).bitrate
        = ⟨st0.samples ++ [(b, dt)]⟩) := by
  constructor
  · intro h
    simp [fetchVAST, okEmitter, h, updateEstimatedBitrate]
  · intro b hb hne
    simp [fetchVAST, okEmitter, hb, updateEstimatedBitrate, hne]

/-- Witness for C6: a details object without `byteLength` leaves the
estimator state unchanged; one with `byteLength: 1000` appends the
sample `(1000, 5)`. -/
theorem fetchVAST_bitrate_update_witness :
    (fetchVAST [] opts0 (fun _ _ => dataNoBytes) okEmitter ⟨[]⟩ 5 req0).bitrate = ⟨[]⟩ ∧
    (fetchVAST [] opts0 (fun _ _ => data0) okEmitter ⟨[]⟩ 5 req0).bitrate
      = ⟨[(.vNum 1000, 5)]⟩ :=
  ⟨(fetchVAST_bitrate_update [] opts0 (fun _ _ => dataNoBytes) ⟨[]⟩ 5 req0).1 rfl,
   (fetchVAST_bitrate_update [] opts0 (fun _ _ => data0) ⟨[]⟩ 5 req0).2
      (.vNum 1000) rfl (by decide)⟩

/-- C7: for every behaviour of the collaborators, the `VAST-resolving`
event — whose payload carries the effective URL, `previousUrl`,
`wrapperDepth`, `maxWrapperDepth`, the configured timeout and
`wrapperAd` — is the first effect of the run: the transport call and
the `VAST-resolved` event can only follow it, in that order. -/
theorem fetchVAST_resolving_precedes_transport_and_resolved (filters : List URLFilter)
    (opts : FetchingOptions) (transport : String → FetchingOptions → TransportResult)
    (emitter : String → Obj → Except String Unit) (st0 : BitrateState) (dt : Int)
    (req : FetchRequest) :
    Obj.get (resolvingPayload (applyFilters filters req.url) opts req) "url"
      = some (.vStr (applyFilters filters req.url)) ∧
    Obj.get (resolvingPayload (applyFilters filters req.url) opts req) "previousUrl"
      = some req.previousUrl ∧
    Obj.get (resolvingPayload (applyFilters filters req.url) opts req) "wrapperDepth"
      = some (.vNum req.wrapperDepth) ∧
    Obj.get (resolvingPayload (applyFilters filters req.url) opts req) "maxWrapperDepth"
      = some (.vNum req.maxWrapperDepth) ∧
    Obj.get (resolvingPayload (applyFilters filters req.url) opts req) "timeout"
      = some opts.timeout ∧
    Obj.get (resolvingPayload (applyFilters filters req.url) opts req) "wrapperAd"
      = some req.wrapperAd ∧
    ((fetchVAST filters opts transport emitter st0 dt req).trace
        = [.emitted "VAST-resolving" (resolvingPayload (applyFilters filters req.url) opts req)]
      ∨ (fetchVAST filters opts transport emitter st0 dt req).trace
        = [.emitted "VAST-resolving" (resolvingPayload (applyFilters filters req.url) opts req),
           .transportGet (applyFilters filters req.url) opts,
           .emitted "VAST-resolved" (resolvedInfo (applyFilters filters req.url) req
             (transport (applyFilters filters req.url) opts) dt)]) := by
  refine ⟨rfl, rfl, rfl, rfl, rfl, rfl, ?_⟩
  cases h1 : emitter "VAST-resolving" (resolvingPayload (applyFilters filters req.url) opts req) with
  | error e =>
      left
      simp [fetchVAST, h1]
  | ok u =>
      cases h2 : emitter "VAST-resolved" (resolvedInfo (applyFilters filters req.url) req
          (transport (applyFilters filters req.url) opts) dt) with
      | error e =>
          right
          simp [fetchVAST, h1, h2]
      | ok u2 =>
          right
          simp [fetchVAST, h1, h2]
